import Mathlib

/-!
Shallow embedding of the AutoCompost control core
(`cloud/compost_calculations.py` and `cloud/mqtt_listener.py`).

Temperatures and humidities are modelled as rationals: the Python code only
compares them against the constant thresholds 70, 65, 55, 60, 50, and on
those comparisons IEEE doubles and exact rationals agree.  Human-readable
`message` strings produced by the code are log-only and are not modelled.
-/

namespace AutoCompost

/-- Fan directive strings used by the code ("ON" / "OFF").  The Python value
`None` is modelled by `Option.none` around this type. -/
inductive FanDir
  | ON
  | OFF
  deriving DecidableEq, Repr

/-- Lid directive strings used by the code ("OPEN" / "CLOSED"). -/
inductive LidDir
  | OPEN
  | CLOSED
  deriving DecidableEq, Repr

/-- The `status` tags returned by `check_temperature_control`. -/
inductive TempStatus
  | optimal
  | too_low
  | too_high
  | critical_high
  deriving DecidableEq, Repr

/-- The `status` tags returned by `check_humidity_control`. -/
inductive HumStatus
  | optimal
  | too_low
  | too_high
  deriving DecidableEq, Repr

/-- Result dictionary of `check_temperature_control` (message field omitted). -/
structure TempControl where
  fan_action : Option FanDir
  lid_action : Option LidDir
  status : TempStatus
  deriving DecidableEq, Repr

/-- Result dictionary of `check_humidity_control` (message field omitted). -/
structure HumControl where
  fan_action : Option FanDir
  status : HumStatus
  deriving DecidableEq, Repr

/-- `check_temperature_control(temp, optimal_min=55.0, optimal_max=65.0)` from
`compost_calculations.py`.  The branches are, in source order: `temp > 70.0`
(critical), `temp > optimal_max` (too high), `temp < optimal_min` (too low),
else optimal. -/
def check_temperature_control (temp optimal_min optimal_max : ℚ) : TempControl :=
  if temp > 70 then
    { fan_action := some .ON, lid_action := some .OPEN, status := .critical_high }
  else if temp > optimal_max then
    { fan_action := some .ON, lid_action := some .OPEN, status := .too_high }
  else if temp < optimal_min then
    { fan_action := some .OFF, lid_action := some .CLOSED, status := .too_low }
  else
    { fan_action := none, lid_action := none, status := .optimal }

/-- `check_humidity_control(humidity, optimal_min=50.0, optimal_max=60.0)` from
`compost_calculations.py`. -/
def check_humidity_control (humidity optimal_min optimal_max : ℚ) : HumControl :=
  if humidity > optimal_max then
    { fan_action := some .ON, status := .too_high }
  else if humidity < optimal_min then
    { fan_action := some .OFF, status := .too_low }
  else
    { fan_action := none, status := .optimal }

/-- Result dictionary of `get_combined_control_recommendation`
(message fields omitted). -/
structure Combined where
  fan_action : Option FanDir
  lid_action : Option LidDir
  temp_status : TempStatus
  humidity_status : HumStatus
  deriving DecidableEq, Repr

/-- `get_combined_control_recommendation(temp, humidity)` from
`compost_calculations.py`: temperature and humidity are each evaluated with
their default bands; the temperature fan action wins when it is not `None`,
otherwise the humidity fan action is used; the lid action is taken from the
temperature evaluation alone. -/
def get_combined_control_recommendation (temp humidity : ℚ) : Combined :=
  let temp_control := check_temperature_control temp 55 65
  let humidity_control := check_humidity_control humidity 50 60
  let fan_action :=
    match temp_control.fan_action with
    | some a => some a
    | none => humidity_control.fan_action
  { fan_action := fan_action
    lid_action := temp_control.lid_action
    temp_status := temp_control.status
    humidity_status := humidity_control.status }

/-! ### Command dispatch (`mqtt_listener.py`, `CompostMQTTListener`) -/

/-- MQTT command topic for the fan (`config.py`). -/
def MQTT_CMD_FAN_TOPIC : String := "compost/cmd/fan"

/-- MQTT command topic for the lid (`config.py`). -/
def MQTT_CMD_LID_TOPIC : String := "compost/cmd/lid"

/-- MQTT command topic for the stirrer (`config.py`). -/
def MQTT_CMD_STIRRER_TOPIC : String := "compost/cmd/stirrer"

/-- Outcome of one call to `self.mqtt_client.publish` inside
`publish_command`: a paho return code, or the call raising. -/
inductive TransportFate
  | rc (n : Nat)
  | raised
  deriving DecidableEq, Repr

/-- What one invocation of `publish_command` did: the transport-level publish
calls it made (at most one, as `(topic, action)`), and whether the publish
succeeded (`result.rc == 0`). -/
structure PubResult where
  attempts : List (String × String)
  success : Bool
  deriving DecidableEq, Repr

/-- `CompostMQTTListener.publish_command(topic, payload)`: when the client is
absent or disconnected it logs and returns without attempting a publish;
otherwise it calls `client.publish` once; a non-zero return code or a raised
exception is logged and swallowed. -/
def publish_command (connected : Bool) (fate : TransportFate)
    (topic action : String) : PubResult :=
  if !connected then
    { attempts := [], success := false }
  else
    match fate with
    | .rc n => { attempts := [(topic, action)], success := n == 0 }
    | .raised => { attempts := [(topic, action)], success := false }

/-- The listener's mutable last-known actuator states
(`self.last_fan_state`, `self.last_lid_state`, `self.last_stirrer_state`),
all initialised to Python `None`. -/
structure ListenerState where
  last_fan_state : Option String
  last_lid_state : Option String
  last_stirrer_state : Option String
  deriving DecidableEq, Repr

/-- Initial listener state (`__init__`): every tracked state is `None`. -/
def ListenerState.init : ListenerState :=
  { last_fan_state := none, last_lid_state := none, last_stirrer_state := none }

/-- The device-state fields `check_thresholds_and_control` reads from the
sensor-data dict via `data.get(...)`.  `none` models an absent key; present
values are modelled as the strings they carry (non-string payloads for these
keys are outside the model). -/
structure DeviceFields where
  fan_state : Option String
  relay : Option String
  fan : Option String
  lid_state : Option String
  lid : Option String
  deriving DecidableEq, Repr

/-- A sensor-data dict with no device-state keys. -/
def DeviceFields.empty : DeviceFields :=
  { fan_state := none, relay := none, fan := none, lid_state := none, lid := none }

/-- Python `a or b` on optional strings: `a` when it is truthy (present and
non-empty), else `b`. -/
def pyOr (a b : Option String) : Option String :=
  match a with
  | some s => if s = "" then b else some s
  | none => b

/-- Python `x or "UNKNOWN"` on a tracked state. -/
def orUnknown (o : Option String) : String :=
  match o with
  | some s => if s = "" then "UNKNOWN" else s
  | none => "UNKNOWN"

/-- The `current_fan_state` computation in `check_thresholds_and_control`:
`data.get('fan_state') or data.get('relay') or data.get('fan')`, then
`str(x).strip().upper()` when truthy, else `self.last_fan_state or 'UNKNOWN'`. -/
def current_fan_state (data : DeviceFields) (st : ListenerState) : String :=
  match pyOr (pyOr data.fan_state data.relay) data.fan with
  | some s => if s = "" then orUnknown st.last_fan_state else s.trim.toUpper
  | none => orUnknown st.last_fan_state

/-- The `current_lid_state` computation in `check_thresholds_and_control`:
`data.get('lid_state') or data.get('lid')`, then `str(x).strip().upper()`
when truthy, else `self.last_lid_state or 'UNKNOWN'`. -/
def current_lid_state (data : DeviceFields) (st : ListenerState) : String :=
  match pyOr data.lid_state data.lid with
  | some s => if s = "" then orUnknown st.last_lid_state else s.trim.toUpper
  | none => orUnknown st.last_lid_state

/-- The fan block of `check_thresholds_and_control`: on action "ON" publish
and set `last_fan_state = 'ON'` when the current state is not "ON"; on
action "OFF" publish and set `last_fan_state = 'OFF'` when the current state
is "ON"; otherwise no publish and the tracked state is untouched.  Returns
the transport publishes made and the new `last_fan_state`. -/
def fan_control_step (fan_action : Option FanDir) (current : String)
    (last : Option String) (connected : Bool) (fate : TransportFate) :
    List (String × String) × Option String :=
  match fan_action with
  | some .ON =>
      if current ≠ "ON" then
        ((publish_command connected fate MQTT_CMD_FAN_TOPIC "ON").attempts, some "ON")
      else ([], last)
  | some .OFF =>
      if current = "ON" then
        ((publish_command connected fate MQTT_CMD_FAN_TOPIC "OFF").attempts, some "OFF")
      else ([], last)
  | none => ([], last)

/-- The lid block of `check_thresholds_and_control`: on action "OPEN" publish
and set `last_lid_state = 'OPEN'` when the current state is not "OPEN"; on
action "CLOSED" publish and set `last_lid_state = 'CLOSED'` when the current
state is "OPEN"; otherwise no publish and the tracked state is untouched. -/
def lid_control_step (lid_action : Option LidDir) (current : String)
    (last : Option String) (connected : Bool) (fate : TransportFate) :
    List (String × String) × Option String :=
  match lid_action with
  | some .OPEN =>
      if current ≠ "OPEN" then
        ((publish_command connected fate MQTT_CMD_LID_TOPIC "OPEN").attempts, some "OPEN")
      else ([], last)
  | some .CLOSED =>
      if current = "OPEN" then
        ((publish_command connected fate MQTT_CMD_LID_TOPIC "CLOSED").attempts, some "CLOSED")
      else ([], last)
  | none => ([], last)

/-- Result of one `check_thresholds_and_control` call: the transport-level
publishes it performed, in order, and the updated listener state. -/
structure CtrlResult where
  published : List (String × String)
  state : ListenerState
  deriving DecidableEq, Repr

/-- `CompostMQTTListener.check_thresholds_and_control(data)`: computes the
combined recommendation for the reading, resolves current fan/lid states from
the data fields or the tracked state, and runs the fan block then the lid
block.  `connected` and the two `TransportFate`s parameterise the transport
behaviour of the publishes that may be attempted. -/
def check_thresholds_and_control (temp humidity : ℚ) (data : DeviceFields)
    (st : ListenerState) (connected : Bool) (fanFate lidFate : TransportFate) :
    CtrlResult :=
  let control := get_combined_control_recommendation temp humidity
  let cf := current_fan_state data st
  let cl := current_lid_state data st
  let fanRes := fan_control_step control.fan_action cf st.last_fan_state connected fanFate
  let lidRes := lid_control_step control.lid_action cl st.last_lid_state connected lidFate
  { published := fanRes.1 ++ lidRes.1
    state := { last_fan_state := fanRes.2
               last_lid_state := lidRes.2
               last_stirrer_state := st.last_stirrer_state } }

/-! ### Periodic stirrer scheduler (`start_periodic_stirrer`) -/

/-- `self.STIRRER_ON_DURATION` (seconds). -/
def STIRRER_ON_DURATION : Nat := 300

/-- `self.STIRRER_OFF_DURATION` (seconds). -/
def STIRRER_OFF_DURATION : Nat := 1800

/-- Observable events of the `stirrer_cycle` loop body: a stirrer command
published via `publish_command` on `MQTT_CMD_STIRRER_TOPIC`, or a call to
`time.sleep` for the given number of seconds. -/
inductive StirrerEvent
  | cmd (action : String)
  | sleep (seconds : Nat)
  deriving DecidableEq, Repr

/-- Where, if anywhere, the body of one `while True` iteration of
`stirrer_cycle` raises: during the transition to ON (before the START
command goes out) or during the transition to OFF (after the ON phase). -/
inductive IterFailure
  | atStart
  | atStop
  deriving DecidableEq, Repr

/-- One iteration of the `while True` loop in `stirrer_cycle`.  When the body
raises, the `except` clause logs and sleeps 60 seconds, and the loop
continues.  Commands are only published while the client is connected (the
`if self.mqtt_client and self.mqtt_client.is_connected()` guards); the
sleeps happen regardless. -/
def stirrer_iteration (connected : Bool) (failure : Option IterFailure) :
    List StirrerEvent :=
  match failure with
  | some .atStart => [.sleep 60]
  | some .atStop =>
      (if connected then [StirrerEvent.cmd "START"] else [])
        ++ [.sleep STIRRER_ON_DURATION, .sleep 60]
  | none =>
      (if connected then [StirrerEvent.cmd "START"] else [])
        ++ [.sleep STIRRER_ON_DURATION]
        ++ (if connected then [StirrerEvent.cmd "STOP"] else [])
        ++ [.sleep STIRRER_OFF_DURATION]

/-- The events of the n-th iteration of the stirrer loop, for a run described
by a per-iteration connectivity trace and a per-iteration failure trace. -/
def stirrer_run (conn : Nat → Bool) (failAt : Nat → Option IterFailure)
    (n : Nat) : List StirrerEvent :=
  stirrer_iteration (conn n) (failAt n)

/-- The stirrer commands issued during the first `n` iterations, in order. -/
def stirrer_commands (conn : Nat → Bool) (failAt : Nat → Option IterFailure)
    (n : Nat) : List String :=
  ((List.range n).map (stirrer_run conn failAt)).flatten.filterMap fun e =>
    match e with
    | .cmd a => some a
    | .sleep _ => none

/-! ### Telemetry parsing (`parse_json_message`)

The parser manipulates the dict returned by `json.loads` with Python dict,
list and string primitives; those primitives and their exception behaviour
are embedded below.  The two library calls `json.loads` and
`datetime.fromisoformat` are modelled as oracle parameters (`loads`,
`fromiso`), with `none` standing for `json.JSONDecodeError` resp.
`ValueError`. -/

/-- Python datetime value: `wall` is the displayed wall-clock time in seconds,
`tzOffset` the UTC offset in seconds of an aware datetime (`none` = naive). -/
structure PyDatetime where
  wall : Int
  tzOffset : Option Int
  deriving DecidableEq, Repr

/-- The `GMT8 = timezone(timedelta(hours=8))` constant, as an offset in
seconds. -/
def GMT8_OFFSET : Int := 8 * 3600

/-- `datetime.now(GMT8)`: an aware datetime in the GMT+8 offset whose
wall-clock value is the current local time there. -/
def datetime_now_gmt8 (nowWall : Int) : PyDatetime :=
  { wall := nowWall, tzOffset := some GMT8_OFFSET }

/-- `dt.astimezone(tz)` for a target offset of `target` seconds: an aware
datetime is converted preserving the instant; a naive datetime is assumed to
be in the process's local timezone (offset `localOff`). -/
def astimezone (dt : PyDatetime) (localOff target : Int) : PyDatetime :=
  let utc :=
    match dt.tzOffset with
    | some off => dt.wall - off
    | none => dt.wall - localOff
  { wall := utc + target, tzOffset := some target }

/-- Python values the parser's dict can hold: the JSON types produced by
`json.loads`, plus `datetime` objects written back into the dict. -/
inductive Json
  | null
  | bool (b : Bool)
  | num (q : ℚ)
  | str (s : String)
  | arr (elems : List Json)
  | obj (entries : List (String × Json))
  | dt (d : PyDatetime)

/-- The Python exceptions the parser's operations can raise. -/
inductive PyErr
  | typeError
  | attributeError
  | keyError
  | valueError
  | jsonDecodeError
  deriving DecidableEq, Repr

/-- First value stored under key `k` (Python dicts have unique keys; first
occurrence is used throughout for list-modelled dicts). -/
def objLookup (entries : List (String × Json)) (k : String) : Option Json :=
  match entries with
  | [] => none
  | (k2, v) :: rest => if k2 = k then some v else objLookup rest k

/-- `d[k] = v` on a dict: replace the value at `k` or append a new entry. -/
def objSet (entries : List (String × Json)) (k : String) (v : Json) :
    List (String × Json) :=
  match entries with
  | [] => [(k, v)]
  | (k2, w) :: rest =>
      if k2 = k then (k2, v) :: rest else (k2, w) :: objSet rest k v

/-- `needle` occurs as a contiguous run inside `haystack` (Python substring
test). -/
def listIsInfixOf (needle haystack : List Char) : Bool :=
  match haystack with
  | [] => needle.isEmpty
  | _ :: rest => needle.isPrefixOf haystack || listIsInfixOf needle rest

/-- Python `k in j`: key test on dicts, element equality on lists (a string
only ever equals an equal string), substring test on strings; `TypeError` on
non-container values. -/
def pyIn (k : String) (j : Json) : Except PyErr Bool :=
  match j with
  | .obj entries => .ok (entries.any fun p => p.1 = k)
  | .arr elems =>
      .ok (elems.any fun x =>
        match x with
        | .str s => s = k
        | _ => false)
  | .str s => .ok (listIsInfixOf k.toList s.toList)
  | _ => .error .typeError

/-- Python `j[k]` for a string key: dict lookup (`KeyError` when missing);
`TypeError` on every other type. -/
def pyGet (j : Json) (k : String) : Except PyErr Json :=
  match j with
  | .obj entries =>
      match objLookup entries k with
      | some v => .ok v
      | none => .error .keyError
  | _ => .error .typeError

/-- Python `j[k] = v` for a string key: dict assignment; `TypeError` on every
other type. -/
def pySet (j : Json) (k : String) (v : Json) : Except PyErr Json :=
  match j with
  | .obj entries => .ok (.obj (objSet entries k v))
  | _ => .error .typeError

/-- Python truthiness of the modelled values. -/
def pyTruthy (j : Json) : Bool :=
  match j with
  | .null => false
  | .bool b => b
  | .num q => q ≠ 0
  | .str s => s ≠ ""
  | .arr elems => !elems.isEmpty
  | .obj entries => !entries.isEmpty
  | .dt _ => true

/-- Python `j.upper()`: defined on strings, `AttributeError` otherwise. -/
def pyUpper (j : Json) : Except PyErr String :=
  match j with
  | .str s => .ok s.toUpper
  | _ => .error .attributeError

/-- `s.replace('Z', '+00:00')`: every occurrence of `Z` is replaced. -/
def replaceZ (s : String) : String :=
  String.mk (s.toList.flatMap fun c => if c = 'Z' then "+00:00".toList else [c])

/-- The body of the `try` in the timestamp branch of `parse_json_message`:
`.replace('Z', '+00:00')` (`AttributeError` on non-strings),
`datetime.fromisoformat` (`ValueError`, i.e. `none`, on unparsable strings),
`.astimezone(GMT8)`, and the dict assignment (whose `TypeError` is NOT
caught by the inner `except (ValueError, AttributeError)`). -/
def ts_attempt (fromiso : String → Option PyDatetime) (localOff : Int)
    (data tsVal : Json) : Except PyErr Json :=
  match tsVal with
  | .str s =>
      match fromiso (replaceZ s) with
      | some dtv => pySet data "timestamp" (.dt (astimezone dtv localOff GMT8_OFFSET))
      | none => .error .valueError
  | _ => .error .attributeError

/-- The timestamp normalisation block of `parse_json_message`:
`if 'timestamp' in data and data['timestamp']:` try to parse and convert,
falling back to `datetime.now(GMT8)` on `ValueError`/`AttributeError`;
otherwise assign `datetime.now(GMT8)` directly. -/
def ts_step (fromiso : String → Option PyDatetime) (localOff nowWall : Int)
    (data : Json) : Except PyErr Json := do
  let hasTs ← pyIn "timestamp" data
  if hasTs then do
    let tsVal ← pyGet data "timestamp"
    if pyTruthy tsVal then
      match ts_attempt fromiso localOff data tsVal with
      | .ok d2 => .ok d2
      | .error .valueError => pySet data "timestamp" (.dt (datetime_now_gmt8 nowWall))
      | .error .attributeError => pySet data "timestamp" (.dt (datetime_now_gmt8 nowWall))
      | .error e => .error e
    else
      pySet data "timestamp" (.dt (datetime_now_gmt8 nowWall))
  else
    pySet data "timestamp" (.dt (datetime_now_gmt8 nowWall))

/-- One of the three field-aliasing blocks of `parse_json_message`:
`if src in data: data[tgt] = data[src].upper()`. -/
def alias_step (src tgt : String) (data : Json) : Except PyErr Json := do
  let hasSrc ← pyIn src data
  if hasSrc then do
    let v ← pyGet data src
    let u ← pyUpper v
    pySet data tgt (.str u)
  else
    .ok data

/-- The body of `parse_json_message` up to but excluding its outermost
exception handlers: `json.loads`, the required-field check (which `return
None`s, modelled as `.ok none`), the timestamp block, and the three aliasing
blocks, any of which may raise. -/
def parse_body (loads : String → Option Json)
    (fromiso : String → Option PyDatetime) (localOff nowWall : Int)
    (message : String) : Except PyErr (Option Json) := do
  match loads message with
  | none => .error .jsonDecodeError
  | some data =>
    let hasTemp ← pyIn "temperature" data
    if !hasTemp then
      .ok none
    else do
      let hasHum ← pyIn "humidity" data
      if !hasHum then
        .ok none
      else do
        let d1 ← ts_step fromiso localOff nowWall data
        let d2 ← alias_step "relay" "fan_state" d1
        let d3 ← alias_step "lid" "lid_state" d2
        let d4 ← alias_step "stirrer" "stirrer_state" d3
        .ok (some d4)

/-- The datetime value the timestamp block stores into a dict payload: the
converted parse result for a truthy, parsable string timestamp, and
`datetime.now(GMT8)` in every other case (absent, falsy, non-string, or
unparsable).  This is the closed form of `ts_step` on dicts, proved as
`ts_step_obj` below. -/
def ts_value (fromiso : String → Option PyDatetime) (localOff nowWall : Int)
    (entries : List (String × Json)) : PyDatetime :=
  match objLookup entries "timestamp" with
  | some (.str s) =>
      if s = "" then datetime_now_gmt8 nowWall
      else
        match fromiso (replaceZ s) with
        | some dtv => astimezone dtv localOff GMT8_OFFSET
        | none => datetime_now_gmt8 nowWall
  | _ => datetime_now_gmt8 nowWall

/-- Whether an aliased device-state field, if present in the payload, holds a
string (so that its `.upper()` call cannot raise `AttributeError`). -/
def aliasValOk (entries : List (String × Json)) (src : String) : Bool :=
  match objLookup entries src with
  | none => true
  | some (.str _) => true
  | some _ => false

/-- The outermost exception handling of `parse_json_message`:
`except json.JSONDecodeError` and the catch-all `except Exception` both log
and `return None`, so every raised error becomes `None`. -/
def exceptToNone (x : Except PyErr (Option Json)) : Option Json :=
  match x with
  | .ok r => r
  | .error _ => none

/-- `CompostMQTTListener.parse_json_message(message)`: the body wrapped in
the outermost exception handlers. -/
def parse_json_message (loads : String → Option Json)
    (fromiso : String → Option PyDatetime) (localOff nowWall : Int)
    (message : String) : Option Json :=
  exceptToNone (parse_body loads fromiso localOff nowWall message)

end AutoCompost

namespace AutoCompost

/-! ## Theorems about the decision engine -/

/-- C1: for every temperature and humidity, the combined lid action equals the
temperature evaluation's lid action (humidity never affects the lid); whenever
the temperature evaluation's fan action is non-NONE it equals the combined fan
action, irrespective of humidity; and when it is NONE the combined fan action
is the humidity evaluation's fan action. -/
theorem combined_priority_law (t hum : ℚ) :
    (get_combined_control_recommendation t hum).lid_action =
      (check_temperature_control t 55 65).lid_action
    ∧ ((check_temperature_control t 55 65).fan_action ≠ none →
        (get_combined_control_recommendation t hum).fan_action =
          (check_temperature_control t 55 65).fan_action)
    ∧ ((check_temperature_control t 55 65).fan_action = none →
        (get_combined_control_recommendation t hum).fan_action =
          (check_humidity_control hum 50 60).fan_action) := by
  refine ⟨by simp [get_combined_control_recommendation], fun hne => ?_, fun heq => ?_⟩
  · simp only [get_combined_control_recommendation]
    cases htc : (check_temperature_control t 55 65).fan_action with
    | none => exact absurd htc hne
    | some a => simp [htc]
  · simp only [get_combined_control_recommendation]
    rw [heq]

/-- Witness for `combined_priority_law` at temperature 80 (fan action ON,
which humidity 30 alone would override to OFF). -/
theorem combined_priority_law_witness :
    (get_combined_control_recommendation 80 30).fan_action =
      (check_temperature_control 80 55 65).fan_action :=
  (combined_priority_law 80 30).2.1 (by decide)

/-- C4 counterexample: at temperature exactly 70 (humidity 70) the code's
status tag is "too_high", not the distinct "critical_high" tag the claim
asserts (the critical branch requires temp strictly above 70.0). -/
theorem critical_at_70_counterexample :
    (get_combined_control_recommendation 70 70).temp_status = .too_high
    ∧ (get_combined_control_recommendation 70 70).temp_status ≠ .critical_high := by
  decide

/-- C4 amended: at temperature 70 and humidity 70 the combined recommendation
is fan ON and lid OPEN with the "too_high" status tag; the distinct
"critical_high" tag fires exactly for temperatures strictly above 70. -/
theorem combined_at_70 :
    (get_combined_control_recommendation 70 70).fan_action = some .ON
    ∧ (get_combined_control_recommendation 70 70).lid_action = some .OPEN
    ∧ (get_combined_control_recommendation 70 70).temp_status = .too_high
    ∧ ∀ t : ℚ, (check_temperature_control t 55 65).status = .critical_high ↔ 70 < t := by
  refine ⟨by decide, by decide, by decide, fun t => ?_⟩
  unfold check_temperature_control
  split_ifs with h1 h2 h3 <;> simp_all

/-- Witness for `combined_at_70`: temperature 71 is tagged critical. -/
theorem combined_at_70_witness :
    (check_temperature_control 71 55 65).status = .critical_high :=
  (combined_at_70.2.2.2 71).mpr (by norm_num)

/-- C6: for every temperature in [55, 65] and humidity in [50, 60], endpoints
included, the combined recommendation is fan NONE and lid NONE with both
status tags "optimal". -/
theorem optimal_band_no_action (t hum : ℚ) (h1 : 55 ≤ t) (h2 : t ≤ 65)
    (h3 : 50 ≤ hum) (h4 : hum ≤ 60) :
    get_combined_control_recommendation t hum =
      { fan_action := none, lid_action := none,
        temp_status := .optimal, humidity_status := .optimal } := by
  unfold get_combined_control_recommendation check_temperature_control check_humidity_control
  split_ifs with a b c d e <;> first
    | rfl
    | (exfalso; linarith)

/-- Witness for `optimal_band_no_action` at the band corners (55, 60). -/
theorem optimal_band_no_action_witness :
    get_combined_control_recommendation 55 60 =
      { fan_action := none, lid_action := none,
        temp_status := .optimal, humidity_status := .optimal } :=
  optimal_band_no_action 55 60 (by norm_num) (by norm_num) (by norm_num) (by norm_num)

/-- C9: for every input, the combined lid action is OPEN iff the temperature
status is "too_high" or "critical_high", CLOSED iff it is "too_low", NONE iff
it is "optimal"; and the combined fan action is NONE iff both the temperature
status and the humidity status are "optimal". -/
theorem status_action_invariant (t hum : ℚ) :
    ((get_combined_control_recommendation t hum).lid_action = some .OPEN ↔
      ((get_combined_control_recommendation t hum).temp_status = .too_high ∨
       (get_combined_control_recommendation t hum).temp_status = .critical_high))
    ∧ ((get_combined_control_recommendation t hum).lid_action = some .CLOSED ↔
        (get_combined_control_recommendation t hum).temp_status = .too_low)
    ∧ ((get_combined_control_recommendation t hum).lid_action = none ↔
        (get_combined_control_recommendation t hum).temp_status = .optimal)
    ∧ ((get_combined_control_recommendation t hum).fan_action = none ↔
        ((get_combined_control_recommendation t hum).temp_status = .optimal ∧
         (get_combined_control_recommendation t hum).humidity_status = .optimal)) := by
  unfold get_combined_control_recommendation check_temperature_control check_humidity_control
  split_ifs <;> simp

/-- Witness for `status_action_invariant` at the optimal reading (60, 55). -/
theorem status_action_invariant_witness :
    (get_combined_control_recommendation 60 55).lid_action = none :=
  (status_action_invariant 60 55).2.2.1.mpr (by decide)

/-! ## Theorems about the command dispatcher -/

theorem publish_attempts_connected (fate : TransportFate) (topic action : String) :
    (publish_command true fate topic action).attempts = [(topic, action)] := by
  cases fate <;> rfl

theorem orUnknown_lit_ON : orUnknown (some "ON") = "ON" := rfl

theorem orUnknown_lit_OFF : orUnknown (some "OFF") = "OFF" := rfl

theorem orUnknown_lit_OPEN : orUnknown (some "OPEN") = "OPEN" := rfl

theorem orUnknown_lit_CLOSED : orUnknown (some "CLOSED") = "CLOSED" := rfl

theorem fan_control_step_snd (a : Option FanDir) (cur : String)
    (last : Option String) (c1 c2 : Bool) (f1 f2 : TransportFate) :
    (fan_control_step a cur last c1 f1).2 = (fan_control_step a cur last c2 f2).2 := by
  cases a with
  | none => rfl
  | some d => cases d <;> by_cases h : cur = "ON" <;> simp [fan_control_step, h]

theorem lid_control_step_snd (a : Option LidDir) (cur : String)
    (last : Option String) (c1 c2 : Bool) (f1 f2 : TransportFate) :
    (lid_control_step a cur last c1 f1).2 = (lid_control_step a cur last c2 f2).2 := by
  cases a with
  | none => rfl
  | some d => cases d <;> by_cases h : cur = "OPEN" <;> simp [lid_control_step, h]

/-- C2 counterexample: with the MQTT client disconnected, `publish_command`
attempts no transport publish at all (so the publish fails), yet
`check_thresholds_and_control` still records `last_fan_state = 'ON'` for a
temperature of 80 — the tracked state does not stay unchanged on transport
failure. -/
theorem failed_publish_updates_tracker_counterexample :
    (check_thresholds_and_control 80 55 DeviceFields.empty ListenerState.init
      false (.rc 0) (.rc 0)).published = []
    ∧ (check_thresholds_and_control 80 55 DeviceFields.empty ListenerState.init
        false (.rc 0) (.rc 0)).state.last_fan_state = some "ON"
    ∧ ListenerState.init.last_fan_state ≠ some "ON" := by
  decide

/-- C2 amended: the tracked state after a dispatch is set to the commanded
value whenever the command branch fires, regardless of transport success —
formally, the resulting listener state does not depend on connectivity or on
the transport fate at all, and a firing fan-ON branch always records "ON". -/
theorem tracked_state_ignores_transport (t hum : ℚ) (data : DeviceFields)
    (st : ListenerState) (c1 c2 : Bool) (f1 f2 g1 g2 : TransportFate) :
    (check_thresholds_and_control t hum data st c1 f1 f2).state =
      (check_thresholds_and_control t hum data st c2 g1 g2).state
    ∧ ((get_combined_control_recommendation t hum).fan_action = some .ON →
        current_fan_state data st ≠ "ON" →
        (check_thresholds_and_control t hum data st c1 f1 f2).state.last_fan_state =
          some "ON") := by
  constructor
  · simp only [check_thresholds_and_control, ListenerState.mk.injEq]
    exact ⟨fan_control_step_snd _ _ _ _ _ _ _, lid_control_step_snd _ _ _ _ _ _ _, trivial⟩
  · intro ha hcur
    simp [check_thresholds_and_control, ha, fan_control_step, hcur]

/-- Witness for `tracked_state_ignores_transport`: a disconnected dispatch at
temperature 80 still records the fan as ON. -/
theorem tracked_state_ignores_transport_witness :
    (check_thresholds_and_control 80 55 DeviceFields.empty ListenerState.init
      false (.rc 1) .raised).state.last_fan_state = some "ON" :=
  (tracked_state_ignores_transport 80 55 DeviceFields.empty ListenerState.init
    false true (.rc 1) .raised (.rc 0) (.rc 0)).2 (by decide) (by decide)

/-- C3 counterexample: at temperature 50 the recommendation is fan OFF and
lid CLOSED, both non-NONE and both different from the tracked state
"UNKNOWN", yet the dispatch publishes nothing (the OFF/CLOSED branches only
publish when the tracked state is "ON"/"OPEN"). -/
theorem publish_iff_differs_counterexample :
    (get_combined_control_recommendation 50 55).fan_action = some .OFF
    ∧ (get_combined_control_recommendation 50 55).lid_action = some .CLOSED
    ∧ current_fan_state DeviceFields.empty ListenerState.init = "UNKNOWN"
    ∧ current_lid_state DeviceFields.empty ListenerState.init = "UNKNOWN"
    ∧ (check_thresholds_and_control 50 55 DeviceFields.empty ListenerState.init
        true (.rc 0) (.rc 0)).published = [] := by
  decide

/-- C3 amended: with a connected client, the ON/OPEN dispatch branches
publish exactly when the current state differs from the action, while the
OFF/CLOSED branches publish exactly when the current state is "ON"/"OPEN"
(not merely different); and a second dispatch of the same reading against the
state left by the first publishes nothing. -/
theorem dispatch_publish_condition :
    (∀ (cur : String) (last : Option String) (f : TransportFate),
      ((fan_control_step (some .ON) cur last true f).1 ≠ [] ↔ cur ≠ "ON")
      ∧ ((fan_control_step (some .OFF) cur last true f).1 ≠ [] ↔ cur = "ON"))
    ∧ (∀ (cur : String) (last : Option String) (f : TransportFate),
      ((lid_control_step (some .OPEN) cur last true f).1 ≠ [] ↔ cur ≠ "OPEN")
      ∧ ((lid_control_step (some .CLOSED) cur last true f).1 ≠ [] ↔ cur = "OPEN"))
    ∧ (∀ (t hum : ℚ) (st : ListenerState) (f1 f2 : TransportFate),
      (check_thresholds_and_control t hum DeviceFields.empty
        (check_thresholds_and_control t hum DeviceFields.empty st true f1 f2).state
        true f1 f2).published = []) := by
  refine ⟨fun cur last f => ⟨?_, ?_⟩, fun cur last f => ⟨?_, ?_⟩, fun t hum st f1 f2 => ?_⟩
  · by_cases h : cur = "ON" <;>
      simp [fan_control_step, publish_attempts_connected, h]
  · by_cases h : cur = "ON" <;>
      simp [fan_control_step, publish_attempts_connected, h]
  · by_cases h : cur = "OPEN" <;>
      simp [lid_control_step, publish_attempts_connected, h]
  · by_cases h : cur = "OPEN" <;>
      simp [lid_control_step, publish_attempts_connected, h]
  · simp only [check_thresholds_and_control, current_fan_state, current_lid_state,
      DeviceFields.empty, pyOr]
    rw [List.append_eq_nil]
    constructor
    · rcases hfa : (get_combined_control_recommendation t hum).fan_action with _ | d
      · simp [fan_control_step]
      · cases d <;> by_cases h : orUnknown st.last_fan_state = "ON" <;>
          simp [fan_control_step, h, orUnknown_lit_ON, orUnknown_lit_OFF]
    · rcases hla : (get_combined_control_recommendation t hum).lid_action with _ | d
      · simp [lid_control_step]
      · cases d <;> by_cases h : orUnknown st.last_lid_state = "OPEN" <;>
          simp [lid_control_step, h, orUnknown_lit_OPEN, orUnknown_lit_CLOSED]

/-- Witness for `dispatch_publish_condition`: a repeated dispatch at
temperature 80 publishes nothing the second time. -/
theorem dispatch_publish_condition_witness :
    (check_thresholds_and_control 80 55 DeviceFields.empty
      (check_thresholds_and_control 80 55 DeviceFields.empty ListenerState.init
        true (.rc 0) (.rc 0)).state
      true (.rc 0) (.rc 0)).published = [] :=
  dispatch_publish_condition.2.2 80 55 ListenerState.init (.rc 0) (.rc 0)

/-! ## Theorems about the periodic stirrer scheduler -/

theorem stirrer_commands_nofail (n : Nat) :
    stirrer_commands (fun _ => true) (fun _ => none) n =
      (List.range (2 * n)).map fun k => if k % 2 = 0 then "START" else "STOP" := by
  induction n with
  | zero => rfl
  | succ m ih =>
    have h2 : 2 * (m + 1) = 2 * m + 1 + 1 := by ring
    have hm0 : 2 * m % 2 = 0 := by omega
    have hm1 : (2 * m + 1) % 2 = 1 := by omega
    simp only [stirrer_commands] at ih ⊢
    rw [List.range_succ, h2, List.range_succ, List.range_succ]
    simp only [List.map_append, List.flatten_append, List.filterMap_append, ih,
      List.map_cons, List.map_nil, List.flatten_cons, List.flatten_nil,
      List.filterMap_cons, hm0, hm1]
    have hrun : stirrer_run (fun _ => true) (fun _ => none) m =
        [.cmd "START", .sleep 300, .cmd "STOP", .sleep 1800] := rfl
    simp [hrun]

/-- C7: the stirrer scheduler constants are 300s ON and 1800s OFF; in an
error-free connected run every loop iteration is exactly
START, sleep 300, STOP, sleep 1800, so the first command is START, commanded
phases strictly alternate, and the loop waits the ON (resp. OFF) duration
after entering each phase; an iteration whose phase transition raises ends
with the fixed 60-second backoff sleep; and no iteration of the loop is ever
the last (the run is defined and non-empty for every iteration index). -/
theorem stirrer_cycle_behaviour :
    STIRRER_ON_DURATION = 300
    ∧ STIRRER_OFF_DURATION = 1800
    ∧ (∀ n, stirrer_run (fun _ => true) (fun _ => none) n =
        [.cmd "START", .sleep STIRRER_ON_DURATION, .cmd "STOP", .sleep STIRRER_OFF_DURATION])
    ∧ (∀ n, stirrer_commands (fun _ => true) (fun _ => none) n =
        (List.range (2 * n)).map fun k => if k % 2 = 0 then "START" else "STOP")
    ∧ (∀ (conn : Nat → Bool) (failAt : Nat → Option IterFailure) (n : Nat) (f : IterFailure),
        failAt n = some f → (stirrer_run conn failAt n).getLast? = some (.sleep 60))
    ∧ (∀ (conn : Nat → Bool) (failAt : Nat → Option IterFailure) (n : Nat),
        stirrer_run conn failAt n ≠ []) := by
  refine ⟨rfl, rfl, fun n => rfl, stirrer_commands_nofail,
    fun conn failAt n f hf => ?_, fun conn failAt n => ?_⟩
  · unfold stirrer_run
    rw [hf]
    cases f
    · rfl
    · cases hc : conn n <;> rfl
  · unfold stirrer_run
    cases hfk : failAt n with
    | none => cases hc : conn n <;> simp [stirrer_iteration]
    | some f => cases f <;> cases hc : conn n <;> simp [stirrer_iteration]

/-- Witness for `stirrer_cycle_behaviour`: a failing first transition backs
off with a 60-second sleep. -/
theorem stirrer_cycle_behaviour_witness :
    (stirrer_run (fun _ => true) (fun _ => some .atStart) 0).getLast? =
      some (.sleep 60) :=
  stirrer_cycle_behaviour.2.2.2.2.1 (fun _ => true) (fun _ => some .atStart) 0 .atStart rfl

/-! ## Theorems about telemetry parsing -/

theorem exbind_ok {α β : Type} (x : α) (f : α → Except PyErr β) :
    (Except.ok x >>= f) = f x := rfl

theorem exbind_error {α β : Type} (e : PyErr) (f : α → Except PyErr β) :
    ((Except.error e : Except PyErr α) >>= f) = .error e := rfl

theorem objLookup_objSet_self (es : List (String × Json)) (k : String) (v : Json) :
    objLookup (objSet es k v) k = some v := by
  induction es with
  | nil => simp [objSet, objLookup]
  | cons p rest ih =>
    obtain ⟨k2, w⟩ := p
    by_cases h : k2 = k <;> simp [objSet, objLookup, h, ih]

theorem objLookup_objSet_ne (es : List (String × Json)) (k k2 : String) (v : Json)
    (h : k2 ≠ k) : objLookup (objSet es k v) k2 = objLookup es k2 := by
  induction es with
  | nil => simp [objSet, objLookup, Ne.symm h]
  | cons p rest ih =>
    obtain ⟨k3, w⟩ := p
    by_cases h3 : k3 = k <;> by_cases h4 : k3 = k2 <;>
      simp_all [objSet, objLookup]

theorem objAny_eq_lookup (es : List (String × Json)) (k : String) :
    (es.any fun p => p.1 = k) = (objLookup es k).isSome := by
  induction es with
  | nil => rfl
  | cons p rest ih =>
    obtain ⟨k2, v⟩ := p
    by_cases h : k2 = k <;> simp [objLookup, h, ih]

theorem ts_value_offset (fromiso : String → Option PyDatetime)
    (localOff nowWall : Int) (entries : List (String × Json)) :
    (ts_value fromiso localOff nowWall entries).tzOffset = some GMT8_OFFSET := by
  unfold ts_value
  cases h : objLookup entries "timestamp" with
  | none => rfl
  | some v =>
    cases v <;> try rfl
    case str s =>
      by_cases hs : s = ""
      · simp [hs, datetime_now_gmt8]
      · cases hfi : fromiso (replaceZ s) <;> simp [hs, hfi, datetime_now_gmt8, astimezone]

theorem ts_step_obj (fromiso : String → Option PyDatetime) (localOff nowWall : Int)
    (es : List (String × Json)) :
    ts_step fromiso localOff nowWall (.obj es) =
      .ok (.obj (objSet es "timestamp"
        (.dt (ts_value fromiso localOff nowWall es)))) := by
  unfold ts_step ts_value
  simp only [pyIn, objAny_eq_lookup, exbind_ok]
  cases hl : objLookup es "timestamp" with
  | none => simp [pySet]
  | some v =>
    simp only [Option.isSome_some, if_true, pyGet, hl, exbind_ok]
    cases v with
    | str s =>
      by_cases hs : s = ""
      · simp [pyTruthy, hs, pySet]
      · cases hfi : fromiso (replaceZ s) <;>
          simp [pyTruthy, hs, ts_attempt, hfi, pySet]
    | bool b => cases b <;> simp [pyTruthy, ts_attempt, pySet]
    | num q =>
      by_cases hq : q = 0 <;> simp [pyTruthy, hq, ts_attempt, pySet]
    | arr xs =>
      cases xs <;> simp [pyTruthy, ts_attempt, pySet, List.isEmpty]
    | obj kvs =>
      cases kvs <;> simp [pyTruthy, ts_attempt, pySet, List.isEmpty]
    | null => simp [pyTruthy, pySet]
    | dt dd => simp [pyTruthy, ts_attempt, pySet]

theorem ts_step_ok_input_obj (fromiso : String → Option PyDatetime)
    (localOff nowWall : Int) (j d : Json)
    (h : ts_step fromiso localOff nowWall j = .ok d) : ∃ es, j = .obj es := by
  cases j with
  | obj es => exact ⟨es, rfl⟩
  | null => simp [ts_step, pyIn, exbind_error] at h
  | bool b => simp [ts_step, pyIn, exbind_error] at h
  | num q => simp [ts_step, pyIn, exbind_error] at h
  | dt dd => simp [ts_step, pyIn, exbind_error] at h
  | arr xs =>
    exfalso
    simp only [ts_step, pyIn, exbind_ok] at h
    split at h <;> simp [pyGet, pySet, exbind_error] at h
  | str s =>
    exfalso
    simp only [ts_step, pyIn, exbind_ok] at h
    split at h <;> simp [pyGet, pySet, exbind_error] at h

theorem alias_step_obj (src tgt : String) (es : List (String × Json)) :
    alias_step src tgt (.obj es) =
      match objLookup es src with
      | some (.str s) => .ok (.obj (objSet es tgt (.str s.toUpper)))
      | some _ => .error .attributeError
      | none => .ok (.obj es) := by
  unfold alias_step
  simp only [pyIn, objAny_eq_lookup, exbind_ok]
  cases hl : objLookup es src with
  | none => simp
  | some v =>
    simp only [Option.isSome_some, if_true, pyGet, hl, exbind_ok]
    cases v <;> simp [pyUpper, pySet, exbind_ok, exbind_error]

theorem alias_step_obj_ok (src tgt : String) (es : List (String × Json)) (d : Json)
    (h : alias_step src tgt (.obj es) = .ok d) :
    ∃ es2, d = .obj es2 ∧ ∀ k, k ≠ tgt → objLookup es2 k = objLookup es k := by
  rw [alias_step_obj] at h
  cases hl : objLookup es src with
  | none =>
    rw [hl] at h
    exact ⟨es, by injection h with h2; exact h2.symm, fun k hk => rfl⟩
  | some v =>
    rw [hl] at h
    cases v <;> simp at h
    case str s =>
      exact ⟨objSet es tgt (.str s.toUpper), h.symm,
        fun k hk => objLookup_objSet_ne es tgt k _ hk⟩

theorem parse_some_obj (loads : String → Option Json)
    (fromiso : String → Option PyDatetime) (localOff nowWall : Int)
    (message : String) (d : Json)
    (h : parse_json_message loads fromiso localOff nowWall message = some d) :
    ∃ entries es, d = .obj es ∧ loads message = some (.obj entries) ∧
      objLookup es "timestamp" =
        some (.dt (ts_value fromiso localOff nowWall entries)) := by
  unfold parse_json_message at h
  cases hb : parse_body loads fromiso localOff nowWall message with
  | error e => rw [hb] at h; simp [exceptToNone] at h
  | ok r =>
    rw [hb] at h
    change r = some d at h
    subst h
    unfold parse_body at hb
    cases hload : loads message with
    | none => rw [hload] at hb; simp at hb
    | some data =>
      rw [hload] at hb
      cases data with
      | null => simp [pyIn, exbind_error] at hb
      | bool b => simp [pyIn, exbind_error] at hb
      | num q => simp [pyIn, exbind_error] at hb
      | dt dd => simp [pyIn, exbind_error] at hb
      | arr xs =>
        exfalso
        simp only [pyIn, exbind_ok] at hb
        split at hb
        · simp at hb
        · split at hb
          · simp at hb
          · cases hts : ts_step fromiso localOff nowWall (.arr xs) with
            | error e => rw [hts] at hb; simp [exbind_error] at hb
            | ok dd =>
              obtain ⟨es, hes⟩ := ts_step_ok_input_obj _ _ _ _ _ hts
              simp at hes
      | str s =>
        exfalso
        simp only [pyIn, exbind_ok] at hb
        split at hb
        · simp at hb
        · split at hb
          · simp at hb
          · cases hts : ts_step fromiso localOff nowWall (.str s) with
            | error e => rw [hts] at hb; simp [exbind_error] at hb
            | ok dd =>
              obtain ⟨es, hes⟩ := ts_step_ok_input_obj _ _ _ _ _ hts
              simp at hes
      | obj entries =>
        simp only [pyIn, objAny_eq_lookup, exbind_ok] at hb
        split at hb
        · simp at hb
        · split at hb
          · simp at hb
          · rw [ts_step_obj] at hb
            simp only [exbind_ok] at hb
            cases ha1 : alias_step "relay" "fan_state"
                (.obj (objSet entries "timestamp"
                  (.dt (ts_value fromiso localOff nowWall entries)))) with
            | error e => rw [ha1] at hb; simp [exbind_error] at hb
            | ok d2 =>
              rw [ha1] at hb
              simp only [exbind_ok] at hb
              obtain ⟨es2, rfl, hp2⟩ := alias_step_obj_ok _ _ _ _ ha1
              cases ha2 : alias_step "lid" "lid_state" (.obj es2) with
              | error e => rw [ha2] at hb; simp [exbind_error] at hb
              | ok d3 =>
                rw [ha2] at hb
                simp only [exbind_ok] at hb
                obtain ⟨es3, rfl, hp3⟩ := alias_step_obj_ok _ _ _ _ ha2
                cases ha3 : alias_step "stirrer" "stirrer_state" (.obj es3) with
                | error e => rw [ha3] at hb; simp [exbind_error] at hb
                | ok d4 =>
                  rw [ha3] at hb
                  simp only [exbind_ok] at hb
                  obtain ⟨es4, rfl, hp4⟩ := alias_step_obj_ok _ _ _ _ ha3
                  have hd : d = .obj es4 := by
                    injection hb with h1
                    injection h1 with h2
                    exact h2.symm
                  refine ⟨entries, es4, hd, rfl, ?_⟩
                  rw [hp4 _ (by decide), hp3 _ (by decide), hp2 _ (by decide),
                    objLookup_objSet_self]

theorem aliasValOk_objSet_ne (es : List (String × Json)) (k src : String) (v : Json)
    (h : src ≠ k) : aliasValOk (objSet es k v) src = aliasValOk es src := by
  unfold aliasValOk
  rw [objLookup_objSet_ne _ _ _ _ h]

theorem stirrer_tail_isSome (es3 : List (String × Json)) :
    (exceptToNone (do
      let d4 ← alias_step "stirrer" "stirrer_state" (.obj es3)
      (Except.ok (some d4) : Except PyErr (Option Json)))).isSome =
      aliasValOk es3 "stirrer" := by
  rw [alias_step_obj]
  unfold aliasValOk
  cases h : objLookup es3 "stirrer" with
  | none => simp [exceptToNone, exbind_ok]
  | some v => cases v <;> simp [exceptToNone, exbind_ok, exbind_error]

theorem lid_tail_isSome (es2 : List (String × Json)) :
    (exceptToNone (do
      let d3 ← alias_step "lid" "lid_state" (.obj es2)
      let d4 ← alias_step "stirrer" "stirrer_state" d3
      (Except.ok (some d4) : Except PyErr (Option Json)))).isSome =
      (aliasValOk es2 "lid" && aliasValOk es2 "stirrer") := by
  rw [alias_step_obj]
  cases h : objLookup es2 "lid" with
  | none =>
    dsimp only
    rw [exbind_ok, stirrer_tail_isSome]
    simp [aliasValOk, h]
  | some v =>
    cases v
    case str s =>
      dsimp only
      rw [exbind_ok, stirrer_tail_isSome, aliasValOk_objSet_ne _ _ _ _ (by decide)]
      simp [aliasValOk, h]
    all_goals simp [exceptToNone, exbind_error, aliasValOk, h]

theorem relay_tail_isSome (es1 : List (String × Json)) :
    (exceptToNone (do
      let d2 ← alias_step "relay" "fan_state" (.obj es1)
      let d3 ← alias_step "lid" "lid_state" d2
      let d4 ← alias_step "stirrer" "stirrer_state" d3
      (Except.ok (some d4) : Except PyErr (Option Json)))).isSome =
      (aliasValOk es1 "relay" && aliasValOk es1 "lid" && aliasValOk es1 "stirrer") := by
  rw [alias_step_obj]
  cases h : objLookup es1 "relay" with
  | none =>
    dsimp only
    rw [exbind_ok, lid_tail_isSome]
    simp [aliasValOk, h]
  | some v =>
    cases v
    case str s =>
      dsimp only
      rw [exbind_ok, lid_tail_isSome, aliasValOk_objSet_ne _ _ _ _ (by decide),
        aliasValOk_objSet_ne _ _ _ _ (by decide)]
      simp [aliasValOk, h]
    all_goals simp [exceptToNone, exbind_error, aliasValOk, h]

/-- C5 amended: for a JSON-object payload the normalizer produces a Reading
exactly when both `temperature` and `humidity` keys are present and every
present device-state alias (`relay`, `lid`, `stirrer`) holds a string value;
the numeric-ness of `temperature`/`humidity` is never checked. -/
theorem parse_accepts_iff (loads : String → Option Json)
    (fromiso : String → Option PyDatetime) (localOff nowWall : Int)
    (message : String) (entries : List (String × Json))
    (hl : loads message = some (.obj entries)) :
    (parse_json_message loads fromiso localOff nowWall message).isSome = true ↔
      ((objLookup entries "temperature").isSome = true
       ∧ (objLookup entries "humidity").isSome = true
       ∧ aliasValOk entries "relay" = true
       ∧ aliasValOk entries "lid" = true
       ∧ aliasValOk entries "stirrer" = true) := by
  unfold parse_json_message parse_body
  rw [hl]
  dsimp only
  simp only [pyIn, objAny_eq_lookup, exbind_ok]
  cases ht : (objLookup entries "temperature").isSome with
  | false => simp [exceptToNone]
  | true =>
    cases hh : (objLookup entries "humidity").isSome with
    | false => simp [exceptToNone]
    | true =>
      simp only [Bool.not_true, Bool.false_eq_true, if_false]
      rw [ts_step_obj, exbind_ok, relay_tail_isSome,
        aliasValOk_objSet_ne _ _ _ _ (by decide),
        aliasValOk_objSet_ne _ _ _ _ (by decide),
        aliasValOk_objSet_ne _ _ _ _ (by decide)]
      simp [Bool.and_eq_true, and_assoc]

/-- C5 counterexample: a payload whose `temperature` field is the non-numeric
string "hot" is not dropped — `parse_json_message` still produces a Reading
(with a substituted current-time timestamp), because the code only checks key
presence, never numeric-ness. -/
theorem parse_nonnumeric_accepted_counterexample :
    parse_json_message
      (fun _ => some (.obj [("temperature", .str "hot"), ("humidity", .num 50)]))
      (fun _ => none) 0 7 "m" =
      some (.obj [("temperature", .str "hot"), ("humidity", .num 50),
        ("timestamp", .dt { wall := 7, tzOffset := some GMT8_OFFSET })]) := by
  rfl

/-- Witness for `parse_accepts_iff`: a well-formed object payload with both
required keys and a string-valued `relay` alias is accepted. -/
theorem parse_accepts_iff_witness :
    (parse_json_message
      (fun _ => some (.obj [("temperature", .num 50), ("humidity", .num 50),
        ("relay", .str "on")]))
      (fun _ => none) 0 7 "m").isSome = true :=
  (parse_accepts_iff
    (fun _ => some (.obj [("temperature", .num 50), ("humidity", .num 50),
      ("relay", .str "on")]))
    (fun _ => none) 0 7 "m"
    [("temperature", .num 50), ("humidity", .num 50), ("relay", .str "on")]
    rfl).mpr ⟨rfl, rfl, rfl, rfl, rfl⟩

/-- C8: every Reading the normalizer produces carries a timestamp that is an
aware datetime in the GMT+8 offset; a truthy, parsable timestamp string
(after the `'Z' → '+00:00'` rewrite) is converted to GMT+8 preserving the
instant; an absent timestamp key or an unparsable timestamp string is
replaced with `datetime.now(GMT8)`; and the timestamp block never rejects an
object payload. -/
theorem parse_timestamp_gmt8 (loads : String → Option Json)
    (fromiso : String → Option PyDatetime) (localOff nowWall : Int)
    (message : String) :
    (∀ d, parse_json_message loads fromiso localOff nowWall message = some d →
      ∃ es w, d = .obj es ∧
        objLookup es "timestamp" =
          some (.dt { wall := w, tzOffset := some GMT8_OFFSET }))
    ∧ (∀ entries s dtv d, loads message = some (.obj entries) →
        objLookup entries "timestamp" = some (.str s) → s ≠ "" →
        fromiso (replaceZ s) = some dtv →
        parse_json_message loads fromiso localOff nowWall message = some d →
        ∃ es, d = .obj es ∧
          objLookup es "timestamp" =
            some (.dt (astimezone dtv localOff GMT8_OFFSET)))
    ∧ (∀ entries d, loads message = some (.obj entries) →
        objLookup entries "timestamp" = none →
        parse_json_message loads fromiso localOff nowWall message = some d →
        ∃ es, d = .obj es ∧
          objLookup es "timestamp" = some (.dt (datetime_now_gmt8 nowWall)))
    ∧ (∀ entries s d, loads message = some (.obj entries) →
        objLookup entries "timestamp" = some (.str s) →
        fromiso (replaceZ s) = none →
        parse_json_message loads fromiso localOff nowWall message = some d →
        ∃ es, d = .obj es ∧
          objLookup es "timestamp" = some (.dt (datetime_now_gmt8 nowWall)))
    ∧ (∀ entries, ∃ es2,
        ts_step fromiso localOff nowWall (.obj entries) = .ok (.obj es2)) := by
  refine ⟨?_, ?_, ?_, ?_, fun entries => ⟨_, ts_step_obj fromiso localOff nowWall entries⟩⟩
  · intro d hd
    obtain ⟨entries, es, rfl, hload, hts⟩ :=
      parse_some_obj loads fromiso localOff nowWall message d hd
    refine ⟨es, (ts_value fromiso localOff nowWall entries).wall, rfl, ?_⟩
    rw [hts]
    have heta : PyDatetime.mk (ts_value fromiso localOff nowWall entries).wall
        (some GMT8_OFFSET) = ts_value fromiso localOff nowWall entries := by
      rw [← ts_value_offset fromiso localOff nowWall entries]
    rw [heta]
  · intro entries s dtv d hload2 hlk hs hfi hd
    obtain ⟨entries2, es, rfl, hload, hts⟩ :=
      parse_some_obj loads fromiso localOff nowWall message _ hd
    rw [hload2] at hload
    injection hload with h1
    injection h1 with h2
    subst h2
    refine ⟨es, rfl, ?_⟩
    rw [hts]
    unfold ts_value
    rw [hlk]
    simp [hs, hfi]
  · intro entries d hload2 hlk hd
    obtain ⟨entries2, es, rfl, hload, hts⟩ :=
      parse_some_obj loads fromiso localOff nowWall message _ hd
    rw [hload2] at hload
    injection hload with h1
    injection h1 with h2
    subst h2
    refine ⟨es, rfl, ?_⟩
    rw [hts]
    unfold ts_value
    rw [hlk]
  · intro entries s d hload2 hlk hfi hd
    obtain ⟨entries2, es, rfl, hload, hts⟩ :=
      parse_some_obj loads fromiso localOff nowWall message _ hd
    rw [hload2] at hload
    injection hload with h1
    injection h1 with h2
    subst h2
    refine ⟨es, rfl, ?_⟩
    rw [hts]
    unfold ts_value
    rw [hlk]
    by_cases hs : s = "" <;> simp [hs, hfi]

/-- Witness for `parse_timestamp_gmt8`: a payload without a timestamp key
gets the current GMT+8 time. -/
theorem parse_timestamp_gmt8_witness :
    ∃ es, (Json.obj [("temperature", .num 50), ("humidity", .num 50),
        ("timestamp", .dt { wall := 5, tzOffset := some GMT8_OFFSET })]) = .obj es ∧
      objLookup es "timestamp" = some (.dt (datetime_now_gmt8 5)) :=
  (parse_timestamp_gmt8
    (fun _ => some (.obj [("temperature", .num 50), ("humidity", .num 50)]))
    (fun _ => none) 0 5 "m").2.2.1
    [("temperature", .num 50), ("humidity", .num 50)]
    (.obj [("temperature", .num 50), ("humidity", .num 50),
      ("timestamp", .dt { wall := 5, tzOffset := some GMT8_OFFSET })])
    rfl rfl rfl

/-- C10: the telemetry parser is total — for every inbound message and every
behaviour of the JSON and timestamp parsing oracles, each exceptional
execution of the body is absorbed by the outermost handlers into the failure
value `none`, and each normal execution is returned as-is; no error escapes
to the caller. -/
theorem parse_never_raises (loads : String → Option Json)
    (fromiso : String → Option PyDatetime) (localOff nowWall : Int)
    (message : String) :
    (∃ d, parse_json_message loads fromiso localOff nowWall message = some d ∧
      parse_body loads fromiso localOff nowWall message = .ok (some d))
    ∨ (parse_json_message loads fromiso localOff nowWall message = none ∧
      (parse_body loads fromiso localOff nowWall message = .ok none ∨
       ∃ e, parse_body loads fromiso localOff nowWall message = .error e)) := by
  cases hb : parse_body loads fromiso localOff nowWall message with
  | error e =>
    right
    exact ⟨by simp [parse_json_message, exceptToNone, hb], .inr ⟨e, rfl⟩⟩
  | ok r =>
    cases r with
    | none =>
      right
      exact ⟨by simp [parse_json_message, exceptToNone, hb], .inl rfl⟩
    | some d =>
      left
      exact ⟨d, by simp [parse_json_message, exceptToNone, hb], rfl⟩

end AutoCompost

